import Mathlib

/-!
Verification of the n8n_ag agent pipeline against its design specification.

The development shallowly embeds the parts of the Python source that the
properties speak about:

* `src/utils/mcp_client.py` — `MCPClient.call_tool`, `MockMCPSession`
  (its tool table `_get_mock_tools` and its `call_tool`);
* `src/mcp_config.py` — the registry of server configurations
  (`MCPManager._initialize_servers`) and `get_servers_for_agent`;
* `src/agent_server.py` — `AgentOrchestrator.execute_workflow` together with
  its helpers `_update_status`, `_log_step`, `_handle_error`,
  `get_workflow_status`;
* `src/agents/collector_agent.py` — `CollectorAgent.collect_information`;
* `src/agents/action_agent.py` / `src/agents/reporter_agent.py` — the method
  tables relevant to the orchestrator's attribute lookups and call arities.

Python dictionaries are embedded as association lists, `datetime.now()` /
`time.time()` as an explicit tick counter threaded through the computation,
and raised exceptions as an explicit `raise` constructor of an outcome type.
Stage domain logic (network scraping, AI calls) is opaque to the orchestrator
in the source and is therefore taken as a function parameter here.
-/

/-- JSON-like values: the payloads of tool arguments and tool responses
(Python `Dict[str, Any]` values in `mcp_client.py`). -/
inductive Val where
  | str (s : String)
  | int (n : Int)
  | bool (b : Bool)
  | list (xs : List Val)
  | obj (fields : List (String × Val))

/-- Association-list lookup, the embedding of Python `dict` indexing /
`dict.get` for string-keyed dictionaries. -/
def lookupStr {α : Type} : List (String × α) → String → Option α
  | [], _ => none
  | (k, v) :: rest, key => if k = key then some v else lookupStr rest key

/-- Association-list store, the embedding of Python `dict[key] = value`. -/
def setStr {α : Type} : List (String × α) → String → α → List (String × α)
  | [], k, v => [(k, v)]
  | (k', v') :: rest, k, v =>
      if k' = k then (k, v) :: rest else (k', v') :: setStr rest k v

/-- Field access on an object value (`response["key"]` on a dict). -/
def Val.field? : Val → String → Option Val
  | .obj fields, k => lookupStr fields k
  | _, _ => none

/-- Whether a value is a dictionary (structured result). -/
def Val.isObj : Val → Bool
  | .obj _ => true
  | _ => false

/-- Rough rendering of a value into a string, standing in for Python `str()`
inside f-string interpolation.  No verified property depends on its output. -/
def Val.render : Val → String
  | .str s => s
  | .int n => toString n
  | .bool b => if b then "True" else "False"
  | .list _ => "<list>"
  | .obj _ => "<dict>"

/-- Tool-call arguments: the `arguments: Dict[str, Any]` parameter. -/
def ToolArgs : Type := List (String × Val)

/-- Embedding of `arguments.get(key, default)` followed by f-string
interpolation, as used in `MockMCPSession.call_tool`. -/
def argRender (arguments : ToolArgs) (key default : String) : String :=
  match lookupStr arguments key with
  | some v => v.render
  | none => default

/-- One entry of `MockMCPSession._get_mock_tools`: description and
parameter list of a mock tool. -/
structure MockToolInfo where
  description : String
  parameters : List String

/-- The per-server mock tool table of `MockMCPSession._get_mock_tools`
(`src/utils/mcp_client.py` lines 159–211).  Servers absent from the table
(`sqlite`, `markdown`, `notion`) get the empty dictionary, exactly as
`tools_by_server.get(self.server_name, {})` does. -/
def mockToolTable (server_name : String) : List (String × MockToolInfo) :=
  if server_name = "firecrawl" then
    [("scrape_url", ⟨"Extract content from a URL", ["url", "options"]⟩),
     ("crawl_site", ⟨"Crawl an entire website", ["url", "max_pages"]⟩)]
  else if server_name = "web_search" then
    [("search", ⟨"Search the web", ["query", "num_results"]⟩)]
  else if server_name = "filesystem" then
    [("read_file", ⟨"Read file contents", ["path"]⟩),
     ("write_file", ⟨"Write file contents", ["path", "content"]⟩),
     ("list_directory", ⟨"List directory contents", ["path"]⟩)]
  else if server_name = "gmail" then
    [("send_email", ⟨"Send email via Gmail", ["to", "subject", "body"]⟩)]
  else if server_name = "slack" then
    [("send_message", ⟨"Send message to Slack", ["channel", "message"]⟩)]
  else if server_name = "chart" then
    [("create_chart", ⟨"Create data visualization chart", ["data", "chart_type", "options"]⟩)]
  else []

/-- The tool names a mock session for `server_name` knows
(the keys of `self.mock_tools`). -/
def mockToolNames (server_name : String) : List String :=
  (mockToolTable server_name).map Prod.fst

/-- The `mock_responses` table of `MockMCPSession.call_tool`
(lines 233–263): the response template for a given tool name, interpolated
with the call arguments; unkeyed tools get the generic template of the
trailing `mock_responses.get(tool_name, {...})` default. -/
def mockResponse (tool_name : String) (arguments : ToolArgs) : Val :=
  if tool_name = "scrape_url" then
    .obj [("success", .bool true),
          ("content", .str ("Mock scraped content from " ++ argRender arguments "url" "unknown URL")),
          ("title", .str "Mock Page Title"),
          ("metadata", .obj [("word_count", .int 150)])]
  else if tool_name = "search" then
    .obj [("success", .bool true),
          ("results", .list [.obj
            [("title", .str ("Mock search result for: " ++ argRender arguments "query" "unknown query")),
             ("url", .str "https://example.com/mock-result"),
             ("snippet", .str "Mock search result snippet...")]])]
  else if tool_name = "send_email" then
    .obj [("success", .bool true),
          ("message", .str ("Mock email sent to " ++ argRender arguments "to" "unknown recipient"))]
  else if tool_name = "send_message" then
    .obj [("success", .bool true),
          ("message", .str ("Mock Slack message sent to " ++ argRender arguments "channel" "unknown channel"))]
  else if tool_name = "create_chart" then
    .obj [("success", .bool true),
          ("chart_url", .str "mock-chart-url.png"),
          ("message", .str "Mock chart created successfully")]
  else
    .obj [("success", .bool true),
          ("message", .str ("Mock response for " ++ tool_name ++ " with arguments: " ++ Val.render (.obj arguments)))]

/-- Mock MCP session (`class MockMCPSession`), identified by the server name
it was created for. -/
structure MockMCPSession where
  server_name : String

/-- `MockMCPSession.call_tool` (lines 224–271): unknown tools fail with a
structured error; known tools answer with their mock response template. -/
def MockMCPSession.call_tool (s : MockMCPSession) (tool_name : String)
    (arguments : ToolArgs) : Val :=
  if tool_name ∈ mockToolNames s.server_name then
    mockResponse tool_name arguments
  else
    .obj [("success", .bool false),
          ("error", .str ("Tool " ++ tool_name ++ " not found in " ++ s.server_name))]

/-- Outcome of a call on a real (non-mock) MCP session: either a result
value or a raised exception (carried as its text). -/
inductive RealCallOut where
  | ok (result : Val)
  | raise (e : String)

/-- An entry of `MCPClient.active_sessions`: either a `MockMCPSession` or a
real `ClientSession`, whose behavior on a tool call is opaque to this code
and therefore a function parameter. -/
inductive Session where
  | mock (m : MockMCPSession)
  | real (behavior : String → ToolArgs → RealCallOut)

/-- `class MCPClient`: agent name plus the `active_sessions` dictionary. -/
structure MCPClient where
  agent_name : String
  active_sessions : List (String × Session)

/-- `MCPClient.call_tool` (lines 99–123): servers without an active session
fail with "not initialized"; a mock session answers itself; a real session's
result is wrapped in `{"success": True, "result": ...}` and a raised
exception is caught and converted to `{"success": False, "error": str(e)}`. -/
def MCPClient.call_tool (c : MCPClient) (server_name tool_name : String)
    (arguments : ToolArgs) : Val :=
  match lookupStr c.active_sessions server_name with
  | none =>
      .obj [("success", .bool false),
            ("error", .str ("Server " ++ server_name ++ " not initialized"))]
  | some (.mock m) => m.call_tool tool_name arguments
  | some (.real behavior) =>
      match behavior tool_name arguments with
      | .ok result => .obj [("success", .bool true), ("result", result)]
      | .raise e => .obj [("success", .bool false), ("error", .str e)]

/-- `@dataclass MCPServerConfig` from `src/mcp_config.py`. -/
structure MCPServerConfig where
  name : String
  command : String
  args : List String
  env : Option (List (String × String))
  description : String

/-- The server registry built by `MCPManager._initialize_servers`
(`src/mcp_config.py` lines 28–108), parametric in `os.getenv` (with the
source's default `""`) and `os.getcwd()`. -/
def mcpServers (getenv : String → String) (cwd : String) :
    List (String × MCPServerConfig) :=
  [("firecrawl",
    { name := "firecrawl", command := "npx",
      args := ["-y", "@modelcontextprotocol/server-firecrawl"],
      env := some [("FIRECRAWL_API_KEY", getenv "FIRECRAWL_API_KEY")],
      description := "Advanced web scraping and data extraction" }),
   ("web_search",
    { name := "web_search", command := "npx",
      args := ["-y", "@modelcontextprotocol/server-web-search"],
      env := some [("SEARCH_API_KEY", getenv "SEARCH_API_KEY")],
      description := "Web search capabilities" }),
   ("filesystem",
    { name := "filesystem", command := "npx",
      args := ["-y", "@modelcontextprotocol/server-filesystem", cwd],
      env := none,
      description := "Secure file system operations" }),
   ("sqlite",
    { name := "sqlite", command := "npx",
      args := ["-y", "@modelcontextprotocol/server-sqlite", "--db-path", "data/news_data.db"],
      env := none,
      description := "SQLite database operations" }),
   ("gmail",
    { name := "gmail", command := "python",
      args := ["-m", "mcp_servers.gmail"],
      env := some [("GMAIL_CLIENT_ID", getenv "GMAIL_CLIENT_ID"),
                   ("GMAIL_CLIENT_SECRET", getenv "GMAIL_CLIENT_SECRET")],
      description := "Gmail integration for sending reports" }),
   ("slack",
    { name := "slack", command := "python",
      args := ["-m", "mcp_servers.slack"],
      env := some [("SLACK_BOT_TOKEN", getenv "SLACK_BOT_TOKEN")],
      description := "Slack integration for notifications" }),
   ("chart",
    { name := "chart", command := "npx",
      args := ["-y", "@modelcontextprotocol/server-chart"],
      env := none,
      description := "Chart generation and visualization" }),
   ("markdown",
    { name := "markdown", command := "python",
      args := ["-m", "mcp_servers.markdown"],
      env := none,
      description := "Markdown document generation" }),
   ("notion",
    { name := "notion", command := "python",
      args := ["-m", "mcp_servers.notion"],
      env := some [("NOTION_API_KEY", getenv "NOTION_API_KEY")],
      description := "Notion workspace integration" })]

/-- The names of the servers declared in the registry. -/
def registryServerNames : List String :=
  ["firecrawl", "web_search", "filesystem", "sqlite", "gmail", "slack",
   "chart", "markdown", "notion"]

/-- The `agent_server_mapping` of `MCPManager.get_servers_for_agent`
(`src/mcp_config.py` lines 110–120). -/
def agent_server_mapping (agent : String) : List String :=
  if agent = "collector" then ["firecrawl", "web_search", "filesystem"]
  else if agent = "processor" then ["filesystem", "sqlite", "chart"]
  else if agent = "action" then ["filesystem", "sqlite"]
  else if agent = "reporter" then
    ["gmail", "slack", "chart", "markdown", "notion", "filesystem"]
  else []

/-- `MCPManager.get_servers_for_agent`: resolve the mapping for the
lower-cased agent name against the registry. -/
def get_servers_for_agent (getenv : String → String) (cwd : String)
    (agent_name : String) : List MCPServerConfig :=
  (agent_server_mapping agent_name.toLower).filterMap
    (fun n => lookupStr (mcpServers getenv cwd) n)

/-- The (agent, server, tool) triples at which the four agents invoke MCP
tools in the source (`collector_agent.py` 154/169, `processor_agent.py`
256/279/296, `reporter_agent.py` 199/221/240/268/295). -/
def agentToolCallSites : List (String × String × String) :=
  [("collector", "web_search", "search"),
   ("collector", "firecrawl", "scrape_url"),
   ("processor", "chart", "create_chart"),
   ("processor", "sqlite", "execute"),
   ("reporter", "gmail", "send_email"),
   ("reporter", "slack", "send_message"),
   ("reporter", "notion", "create_page"),
   ("reporter", "chart", "create_chart"),
   ("reporter", "markdown", "create_document")]

/-- Inter-stage envelope (the `{status, message, data, ...}` dictionaries the
four agents return): the orchestrator reads only `status` and `message`;
the rest of the dictionary is opaque payload. -/
structure Env where
  status : String
  message : String
  data : Val

/-- Outcome of invoking a stage: the call either returns an envelope or
raises an exception (carried as its text). -/
inductive StageOutcome where
  | ret (env : Env)
  | raise (e : String)

/-- The `all_data` dictionary assembled by `execute_workflow` before the
reporting stage (`src/agent_server.py` lines 90–95). -/
structure AllData where
  user_request : String
  collection_data : Env
  processing_data : Env
  action_data : Env

/-- The four stage calls `execute_workflow` makes, as functions: the domain
logic behind each is opaque to the orchestrator. -/
structure StageFns where
  collect : String → StageOutcome
  process : Env → StageOutcome
  act : Env → String → StageOutcome
  report : AllData → String → StageOutcome

/-- One entry of the `steps` log appended by `_log_step`. -/
structure StepEntry where
  step : String
  status : String
  timestamp : Nat
  message : String
deriving DecidableEq

/-- The `workflow_summary` dictionary of the final success result
(`src/agent_server.py` lines 113–118). -/
structure WorkflowSummary where
  total_steps : Nat
  completed_steps : Nat
  execution_time : Nat
  user_request : String

/-- The dictionary `execute_workflow` returns: either the final success
result (lines 108–125) or the error result built by `_handle_error`
(lines 156–162). -/
inductive OrchResult where
  | ok (request_id message : String) (timestamp : Nat)
      (workflow_summary : WorkflowSummary)
      (collection processing action report : Env)
  | err (request_id message : String) (timestamp : Nat)
      (error_data : Option Env)

/-- The `status` field of the returned dictionary. -/
def OrchResult.status : OrchResult → String
  | .ok .. => "success"
  | .err .. => "error"

/-- The `message` field of the returned dictionary. -/
def OrchResult.message : OrchResult → String
  | .ok _ m _ _ _ _ _ _ => m
  | .err _ m _ _ => m

/-- The `results` sub-dictionary `{collection, processing, action, report}`
of a success result; absent on an error result. -/
def OrchResult.results? : OrchResult → Option (Env × Env × Env × Env)
  | .ok _ _ _ _ c p a r => some (c, p, a, r)
  | .err .. => none

/-- One `WorkflowState` entry of `self.workflow_status` (initialized at
lines 49–55; `end_time`, `result`, `error` only appear at the terminal
transition, hence `Option`). -/
structure WorkflowState where
  status : String
  start_time : Nat
  current_step : String
  progress : Nat
  steps : List StepEntry
  end_time : Option Nat
  result : Option OrchResult
  error : Option OrchResult

/-- The in-memory workflow state store `self.workflow_status`. -/
def Store : Type := List (String × WorkflowState)

/-- Guarded in-place mutation of one store entry: the embedding of the
`if request_id in self.workflow_status:` pattern used by `_update_status`,
`_log_step` and `_handle_error`. -/
def storeModify (s : Store) (k : String) (f : WorkflowState → WorkflowState) :
    Store :=
  match lookupStr s k with
  | some v => setStr s k (f v)
  | none => s

/-- `AgentOrchestrator._update_status` (lines 136–140). -/
def _update_status (store : Store) (request_id current_step : String)
    (progress : Nat) : Store :=
  storeModify store request_id
    (fun st => { st with current_step := current_step, progress := progress })

/-- `AgentOrchestrator._log_step` (lines 142–150): append one entry to the
step log; `datetime.now()` consumes one clock tick. -/
def _log_step (store : Store) (clock : Nat) (request_id step_name : String)
    (result : Env) : Store × Nat :=
  (storeModify store request_id
    (fun st => { st with steps := st.steps ++
      [{ step := step_name, status := result.status, timestamp := clock,
         message := result.message }] }),
   clock + 1)

/-- `AgentOrchestrator._handle_error` (lines 152–169): build the error
result, mark the state as terminal error with an `end_time`, and return. -/
def _handle_error (store : Store) (clock : Nat)
    (request_id error_message : String) (error_data : Option Env) :
    OrchResult × Store × Nat :=
  let error_result := OrchResult.err request_id error_message clock error_data
  let store' := storeModify store request_id
    (fun st => { st with
                  status := "error"
                  end_time := some (clock + 1)
                  error := some error_result })
  (error_result, store', clock + 2)

/-- Everything one run of `execute_workflow` produces: the returned
dictionary, the state store and clock afterwards, and the ghost trace of
every value written to the state's `progress` field, in write order. -/
structure RunOut where
  result : OrchResult
  store : Store
  clock : Nat
  progressTrace : List Nat

/-- Package an error return of `_handle_error` together with the ghost
progress trace accumulated so far. -/
def runErr : OrchResult × Store × Nat → List Nat → RunOut
  | (r, s, c), t => { result := r, store := s, clock := c, progressTrace := t }

/-- Line 42–43: fall back to a generated `req_<time>` identifier when the
caller supplied none (Python treats `None` and `""` both as falsy). -/
def effective_request_id (request_id? : Option String) (clock0 : Nat) :
    String :=
  match request_id? with
  | none => "req_" ++ toString clock0
  | some r => if r = "" then "req_" ++ toString clock0 else r

/-- `AgentOrchestrator.execute_workflow` (`src/agent_server.py` lines
40–134): initialize the per-request state, run the four stages in order with
a checkpoint update and a step-log append around each, short-circuit through
`_handle_error` on a non-success envelope, convert any raised exception to
the same error shape at the top level, and assemble the aggregated success
result when all four stages succeed. -/
def execute_workflow (stages : StageFns) (user_request : String)
    (request_id? : Option String) (store0 : Store) (clock0 : Nat) : RunOut :=
  let request_id := effective_request_id request_id? clock0
  let st0 : WorkflowState :=
    { status := "running", start_time := clock0,
      current_step := "initialization", progress := 0, steps := [],
      end_time := none, result := none, error := none }
  let store1 := setStr store0 request_id st0
  let clock1 := clock0 + 1
  let trace1 := [0, 25]
  let store2 := _update_status store1 request_id "collection" 25
  match stages.collect user_request with
  | .raise e =>
      runErr (_handle_error store2 clock1 request_id
        ("워크플로우 실행 중 오류: " ++ e) none) trace1
  | .ret collection_result =>
    let (store3, clock2) := _log_step store2 clock1 request_id "collection"
      collection_result
    if collection_result.status ≠ "success" then
      runErr (_handle_error store3 clock2 request_id "정보 수집 실패"
        (some collection_result)) trace1
    else
      let trace2 := trace1 ++ [50]
      let store4 := _update_status store3 request_id "processing" 50
      match stages.process collection_result with
      | .raise e =>
          runErr (_handle_error store4 clock2 request_id
            ("워크플로우 실행 중 오류: " ++ e) none) trace2
      | .ret processing_result =>
        let (store5, clock3) := _log_step store4 clock2 request_id
          "processing" processing_result
        if processing_result.status ≠ "success" then
          runErr (_handle_error store5 clock3 request_id "데이터 처리 실패"
            (some processing_result)) trace2
        else
          let trace3 := trace2 ++ [75]
          let store6 := _update_status store5 request_id "action" 75
          match stages.act processing_result user_request with
          | .raise e =>
              runErr (_handle_error store6 clock3 request_id
                ("워크플로우 실행 중 오류: " ++ e) none) trace3
          | .ret action_result =>
            let (store7, clock4) := _log_step store6 clock3 request_id
              "action" action_result
            if action_result.status ≠ "success" then
              runErr (_handle_error store7 clock4 request_id "행동 수행 실패"
                (some action_result)) trace3
            else
              let trace4 := trace3 ++ [90]
              let store8 := _update_status store7 request_id "reporting" 90
              let all_data : AllData :=
                { user_request := user_request,
                  collection_data := collection_result,
                  processing_data := processing_result,
                  action_data := action_result }
              match stages.report all_data user_request with
              | .raise e =>
                  runErr (_handle_error store8 clock4 request_id
                    ("워크플로우 실행 중 오류: " ++ e) none) trace4
              | .ret report_result =>
                let (store9, clock5) := _log_step store8 clock4 request_id
                  "reporting" report_result
                if report_result.status ≠ "success" then
                  runErr (_handle_error store9 clock5 request_id
                    "보고서 생성 실패" (some report_result)) trace4
                else
                  let trace5 := trace4 ++ [100]
                  let store10 := _update_status store9 request_id
                    "completed" 100
                  let summary : WorkflowSummary :=
                    { total_steps := 4, completed_steps := 4,
                      execution_time := clock5 + 1 - clock0,
                      user_request := user_request }
                  let final_result := OrchResult.ok request_id
                    "워크플로우가 성공적으로 완료되었습니다." clock5 summary
                    collection_result processing_result action_result
                    report_result
                  let store11 := storeModify store10 request_id
                    (fun st => { st with
                                  status := "completed"
                                  end_time := some (clock5 + 2)
                                  result := some final_result })
                  { result := final_result, store := store11,
                    clock := clock5 + 3, progressTrace := trace5 }

/-- Result of `AgentOrchestrator.get_workflow_status`: the state dictionary
when found, else the literal `{"status": "not_found"}`. -/
inductive StatusView where
  | found (st : WorkflowState)
  | not_found

/-- The `status` field of a status query response. -/
def StatusView.status : StatusView → String
  | .found st => st.status
  | .not_found => "not_found"

/-- `AgentOrchestrator.get_workflow_status` (lines 179–181), embedded as a
state-passing function so that its frame (the store it leaves behind) is
explicit: the source performs a bare `dict.get`. -/
def get_workflow_status (store : Store) (request_id : String) :
    StatusView × Store :=
  (match lookupStr store request_id with
   | some st => .found st
   | none => .not_found,
   store)

/-- The attribute names defined on `class ActionAgent`
(`src/agents/action_agent.py`): its methods and the instance attributes set
in `__init__`.  The orchestrator's action-stage call looks up
`execute_actions` here — a name this table does not contain. -/
def actionAgentAttrs : List String :=
  ["config", "model_client", "action_agent", "user_proxy",
   "execute_action", "_create_action_plan", "_execute_action_plan",
   "_generate_comprehensive_summary", "_perform_deep_analysis",
   "_prepare_final_report", "_plan_data_improvement", "_followup_on_insight",
   "_analyze_trends", "_recognize_patterns", "_analyze_correlations",
   "_generate_predictive_insights", "_create_executive_summary",
   "_create_detailed_analysis", "_generate_recommendations",
   "_create_appendix", "_get_current_timestamp", "_evaluate_actions",
   "_assess_user_satisfaction", "_save_processed_data", "_send_to_n8n",
   "get_agent_info"]

/-- The action-stage call the orchestrator actually makes (line 79 of
`src/agent_server.py`): Python attribute lookup of `execute_actions` on the
`ActionAgent` instance, which raises `AttributeError` when the attribute
table has no such name.  The behavior of `ActionAgent.execute_action`
(the method that does exist) is the opaque `execute_action_impl`. -/
def actionStageCall (execute_action_impl : Env → String → StageOutcome)
    (processing_result : Env) (user_request : String) : StageOutcome :=
  if "execute_actions" ∈ actionAgentAttrs then
    execute_action_impl processing_result user_request
  else
    .raise "AttributeError: ActionAgent object has no attribute execute_actions"

/-- The positional parameters of `ReporterAgent.generate_report`
(`src/agents/reporter_agent.py` line 88), excluding `self`. -/
def reporterGenerateReportParams : List String :=
  ["collector_result", "processor_result", "action_result", "user_request"]

/-- The reporting-stage call the orchestrator actually makes (line 97 of
`src/agent_server.py`): `generate_report(all_data, user_request)` supplies 2
positional arguments against the 4 required parameters, so Python raises
`TypeError` at the call; the method body is never entered. -/
def reporterStageCall (_all_data : AllData) (_user_request : String) :
    StageOutcome :=
  if reporterGenerateReportParams.length = 2 then
    .ret { status := "unreachable", message := "", data := .obj [] }
  else
    .raise "TypeError: generate_report missing 2 required positional arguments"

/-- One collected site item, carrying the keys
`_structure_collected_data` reads (`status`, `url`, `title`, `description`,
`content`); keys a producer omits (`description` on the MCP branch) are the
empty string, matching the `.get(key, "")` reads. -/
structure SiteItem where
  status : String
  url : String
  title : String
  description : String
  content : String

/-- The `collection_summary` dictionary of
`CollectorAgent._structure_collected_data`. -/
structure CollectionSummary where
  total_sites : Nat
  successful_scrapes : Nat
  failed_scrapes : Nat

/-- One entry of `sites_data` built by `_structure_collected_data`. -/
structure SiteSummary where
  url : String
  title : String
  description : String
  content_preview : String
  relevance_score : ℚ

/-- The structured dictionary `_structure_collected_data` returns. -/
structure StructuredData where
  user_request : String
  collection_summary : CollectionSummary
  sites_data : List SiteSummary

/-- `CollectorAgent._calculate_relevance` (lines 245–264): Jaccard
similarity of the two keyword sets; Python floats are embedded as rationals.
`extract_keywords` is `CollectorAgent._extract_keywords`, a pure text
tokenizer (regex plus stop-word filter) taken as a parameter. -/
def _calculate_relevance (extract_keywords : String → List String)
    (content user_request : String) : ℚ :=
  if content = "" ∨ user_request = "" then 0
  else
    let request_keywords := (extract_keywords user_request).dedup
    let content_keywords := (extract_keywords content).dedup
    if request_keywords = [] then 0
    else
      let inter := (request_keywords.filter (· ∈ content_keywords)).length
      let union := (request_keywords ++
        content_keywords.filter (· ∉ request_keywords)).length
      if union = 0 then 0 else (inter : ℚ) / (union : ℚ)

/-- The `content_preview` truncation of `_structure_collected_data`
(line 235). -/
def contentPreview (content : String) : String :=
  if content.length > 200 then content.take 200 ++ "..." else content

/-- `CollectorAgent._structure_collected_data` (lines 217–243): summary
counts, per-site summaries of the successful items, sorted by relevance
score in descending order (stable, like Python `list.sort(reverse=True)`). -/
def _structure_collected_data (extract_keywords : String → List String)
    (scraped_data : List SiteItem) (user_request : String) : StructuredData :=
  let sites := (scraped_data.filter (fun d => d.status = "success")).map
    (fun d => { url := d.url, title := d.title, description := d.description,
                content_preview := contentPreview d.content,
                relevance_score :=
                  _calculate_relevance extract_keywords d.content user_request
                : SiteSummary })
  { user_request := user_request,
    collection_summary :=
      { total_sites := scraped_data.length,
        successful_scrapes :=
          (scraped_data.filter (fun d => d.status = "success")).length,
        failed_scrapes :=
          (scraped_data.filter (fun d => d.status = "error")).length },
    sites_data := sites.mergeSort
      (fun a b => decide (b.relevance_score ≤ a.relevance_score)) }

/-- The dictionary `collect_information` returns on its (only) return
statement. -/
structure CollectResult where
  status : String
  message : String
  data : StructuredData
  raw_data : List SiteItem

/-- Outcome of `collect_information`: a returned dictionary or a raised
exception. -/
inductive CollectOutcome where
  | ret (r : CollectResult)
  | raise (e : String)

/-- `CollectorAgent.collect_information` (`src/agents/collector_agent.py`
lines 88–121).  The effectful collaborators are parameters:
`mcpCollect` is `_collect_with_mcp` (I/O through the MCP client; returns
`[]`-or-more items and, by its own try/except, never raises),
`search_websites` and `scrape_multiple_sites` are the `WebScraper` methods.
`mcpPresent` is the truthiness of `self.mcp_client`.  The local variable
`urls` is `Option`-valued: it is assigned only inside the fallback branch,
and the success message interpolates it — reading it while unassigned is
Python's `UnboundLocalError`. -/
def collect_information (extract_keywords : String → List String)
    (mcpPresent : Bool) (mcpCollect : String → List SiteItem)
    (search_websites : String → List String)
    (scrape_multiple_sites : List String → List SiteItem)
    (user_request : String) : CollectOutcome :=
  let search_query := " ".intercalate (extract_keywords user_request)
  let mcp_data := if mcpPresent then mcpCollect search_query else []
  let urls? : Option (List String) := none
  let fallback_data : List SiteItem := []
  let (urls?, fallback_data) :=
    if mcp_data.length < 3 then
      let urls := search_websites search_query
      (some urls,
       if urls.isEmpty then fallback_data else scrape_multiple_sites urls)
    else (urls?, fallback_data)
  let scraped_data := mcp_data ++ fallback_data
  let structured_data :=
    _structure_collected_data extract_keywords scraped_data user_request
  match urls? with
  | none => .raise "UnboundLocalError: local variable urls referenced before assignment"
  | some urls =>
      .ret { status := "success",
             message := toString urls.length ++
               "개 웹사이트에서 정보를 수집했습니다.",
             data := structured_data,
             raw_data := scraped_data }

/-- Looking a key up right after storing a value under it yields that
value (dictionary assignment semantics). -/
theorem lookupStr_setStr_self {α : Type} (s : List (String × α)) (k : String)
    (v : α) : lookupStr (setStr s k v) k = some v := by
  induction s with
  | nil => simp [setStr, lookupStr]
  | cons hd tl ih =>
      rcases hd with ⟨k', v'⟩
      by_cases h : k' = k <;> simp [setStr, lookupStr, h, ih]

/-- A guarded in-place mutation transforms exactly the entry it targets. -/
theorem lookupStr_storeModify_self (s : Store) (k : String)
    (f : WorkflowState → WorkflowState) :
    lookupStr (storeModify s k f) k = (lookupStr s k).map f := by
  unfold storeModify
  cases h : lookupStr s k <;> simp [h, lookupStr_setStr_self]

/-- The registry declares exactly the nine server names, independently of
the environment and working directory it is built from. -/
theorem mcpServers_names (getenv : String → String) (cwd : String) :
    (mcpServers getenv cwd).map Prod.fst = registryServerNames := rfl

/-- A minimal success envelope, used to instantiate stage stubs. -/
def okEnv : Env := { status := "success", message := "ok", data := .obj [] }

/-- An error envelope with the spec scenario's message. -/
def errEnv : Env := { status := "error", message := "bad data", data := .obj [] }

/-- Collection stage stub that succeeds. -/
def stubCollect : String → StageOutcome := fun _ => .ret okEnv

/-- Processing stage stub that succeeds. -/
def stubProcess : Env → StageOutcome := fun _ => .ret okEnv

/-- Action stage stub that succeeds. -/
def stubAct : Env → String → StageOutcome := fun _ _ => .ret okEnv

/-- Reporting stage stub that succeeds. -/
def stubReport : AllData → String → StageOutcome := fun _ _ => .ret okEnv

/-- All four stages stubbed to succeed with minimal payloads. -/
def stubStagesOK : StageFns :=
  { collect := stubCollect, process := stubProcess, act := stubAct,
    report := stubReport }

/-- Stages whose collection stage raises an exception. -/
def raisingStages : StageFns :=
  { collect := fun _ => .raise "boom", process := stubProcess, act := stubAct,
    report := stubReport }

/-- Stages whose processing stage returns an error envelope (the spec's
second scenario). -/
def failProcessStages : StageFns :=
  { collect := stubCollect, process := fun _ => .ret errEnv, act := stubAct,
    report := stubReport }

/-- The orchestrator's stage wiring as the source makes it: collection and
processing behaviors opaque, the action stage reached through the
`execute_actions` attribute lookup on `ActionAgent`, and the reporting
stage through the 2-argument call of the 4-parameter `generate_report`. -/
def wiredStages (collectFn : String → StageOutcome)
    (processFn : Env → StageOutcome)
    (execImpl : Env → String → StageOutcome) : StageFns :=
  { collect := collectFn, process := processFn,
    act := actionStageCall execImpl,
    report := reporterStageCall }

/-- C1: if all four stage calls made by `execute_workflow` return envelopes
with status `success`, the run returns a success result aggregating the four
stage outputs (collection, processing, action, report), and the stored
workflow state ends with progress 100, status `completed`, a recorded
`end_time`, the four step-log entries in order, and the returned result
stored as its `result`. -/
theorem execute_workflow_all_stages_success (stages : StageFns) (ur : String)
    (rid? : Option String) (store0 : Store) (clock0 : Nat)
    (c p a r : Env)
    (hc : stages.collect ur = .ret c) (hcs : c.status = "success")
    (hp : stages.process c = .ret p) (hps : p.status = "success")
    (ha : stages.act p ur = .ret a) (has : a.status = "success")
    (hr : stages.report ⟨ur, c, p, a⟩ ur = .ret r)
    (hrs : r.status = "success") :
    (execute_workflow stages ur rid? store0 clock0).result.status =
      "success" ∧
    (execute_workflow stages ur rid? store0 clock0).result.results? =
      some (c, p, a, r) ∧
    ∃ st, lookupStr (execute_workflow stages ur rid? store0 clock0).store
        (effective_request_id rid? clock0) = some st ∧
      st.progress = 100 ∧ st.status = "completed" ∧ st.end_time.isSome ∧
      st.steps = [⟨"collection", c.status, clock0 + 1, c.message⟩,
                  ⟨"processing", p.status, clock0 + 2, p.message⟩,
                  ⟨"action", a.status, clock0 + 3, a.message⟩,
                  ⟨"reporting", r.status, clock0 + 4, r.message⟩] ∧
      st.result =
        some (execute_workflow stages ur rid? store0 clock0).result := by
  simp [execute_workflow, _update_status, _log_step, _handle_error, runErr,
    hc, hcs, hp, hps, ha, has, hr, hrs, OrchResult.status,
    OrchResult.results?, lookupStr_storeModify_self, lookupStr_setStr_self,
    storeModify]

/-- C1 witness: the all-stages-succeed scenario on concrete stubs,
request "test topic" with identifier "req1". -/
theorem execute_workflow_all_stages_success_witness :
    (execute_workflow stubStagesOK "test topic" (some "req1") [] 0).result.status =
      "success" ∧
    (execute_workflow stubStagesOK "test topic" (some "req1") [] 0).result.results? =
      some (okEnv, okEnv, okEnv, okEnv) ∧
    ∃ st, lookupStr
        (execute_workflow stubStagesOK "test topic" (some "req1") [] 0).store
        (effective_request_id (some "req1") 0) = some st ∧
      st.progress = 100 ∧ st.status = "completed" ∧ st.end_time.isSome ∧
      st.steps = [⟨"collection", okEnv.status, 0 + 1, okEnv.message⟩,
                  ⟨"processing", okEnv.status, 0 + 2, okEnv.message⟩,
                  ⟨"action", okEnv.status, 0 + 3, okEnv.message⟩,
                  ⟨"reporting", okEnv.status, 0 + 4, okEnv.message⟩] ∧
      st.result = some
        (execute_workflow stubStagesOK "test topic" (some "req1") [] 0).result :=
  execute_workflow_all_stages_success stubStagesOK "test topic" (some "req1")
    [] 0 okEnv okEnv okEnv okEnv rfl rfl rfl rfl rfl rfl rfl rfl

/-- C2: with the orchestrator's real wiring, any run whose collection and
processing stages return success envelopes still terminates with status
`error` and never reaches `completed` or progress 100: the attribute lookup
of `execute_actions` on `ActionAgent` (which defines only `execute_action`)
raises `AttributeError`, converted to an error result by the top-level
handler — regardless of what `execute_action` itself would do; likewise the
reporter call `generate_report(all_data, user_request)` supplies 2 arguments
against 4 parameters and raises `TypeError` at the call. -/
theorem execute_workflow_action_attribute_error
    (collectFn : String → StageOutcome) (processFn : Env → StageOutcome)
    (execImpl : Env → String → StageOutcome)
    (ur : String) (rid? : Option String) (store0 : Store) (clock0 : Nat)
    (c p : Env)
    (hc : collectFn ur = .ret c) (hcs : c.status = "success")
    (hp : processFn c = .ret p) (hps : p.status = "success") :
    (execute_workflow (wiredStages collectFn processFn execImpl) ur rid?
      store0 clock0).result.status = "error" ∧
    (execute_workflow (wiredStages collectFn processFn execImpl) ur rid?
      store0 clock0).result.message =
      "워크플로우 실행 중 오류: AttributeError: ActionAgent object has no attribute execute_actions" ∧
    (∃ st, lookupStr (execute_workflow (wiredStages collectFn processFn
        execImpl) ur rid? store0 clock0).store
        (effective_request_id rid? clock0) = some st ∧
      st.status = "error" ∧ st.progress = 75 ∧ st.status ≠ "completed" ∧
      st.progress ≠ 100) ∧
    (∀ (ad : AllData) (u : String), reporterStageCall ad u =
      .raise "TypeError: generate_report missing 2 required positional arguments") := by
  simp [execute_workflow, wiredStages, actionStageCall, actionAgentAttrs,
    reporterStageCall, reporterGenerateReportParams,
    _update_status, _log_step, _handle_error, runErr,
    hc, hcs, hp, hps, OrchResult.status, OrchResult.message,
    lookupStr_storeModify_self, lookupStr_setStr_self, storeModify]

/-- C2 witness: concrete stubs for collection/processing/`execute_action`;
the run still errors at the action stage. -/
theorem execute_workflow_action_attribute_error_witness :
    (execute_workflow (wiredStages stubCollect stubProcess stubAct)
      "test topic" (some "req1") [] 0).result.status = "error" ∧
    (execute_workflow (wiredStages stubCollect stubProcess stubAct)
      "test topic" (some "req1") [] 0).result.message =
      "워크플로우 실행 중 오류: AttributeError: ActionAgent object has no attribute execute_actions" ∧
    (∃ st, lookupStr (execute_workflow (wiredStages stubCollect stubProcess
        stubAct) "test topic" (some "req1") [] 0).store
        (effective_request_id (some "req1") 0) = some st ∧
      st.status = "error" ∧ st.progress = 75 ∧ st.status ≠ "completed" ∧
      st.progress ≠ 100) ∧
    (∀ (ad : AllData) (u : String), reporterStageCall ad u =
      .raise "TypeError: generate_report missing 2 required positional arguments") :=
  execute_workflow_action_attribute_error stubCollect stubProcess stubAct
    "test topic" (some "req1") [] 0 okEnv okEnv rfl rfl rfl rfl

/-- C3: `execute_workflow` never propagates an exception: its result always
has status `success` or `error` (it is a total function of the stage
outcomes, exceptions included), and whichever stage call raises, the run
returns an error result whose message is the fixed prefix followed by the
exception text, with the stored state set to status `error` and an
`end_time` recorded. -/
theorem execute_workflow_never_propagates (stages : StageFns) (ur : String)
    (rid? : Option String) (store0 : Store) (clock0 : Nat) :
    ((execute_workflow stages ur rid? store0 clock0).result.status =
        "success" ∨
      (execute_workflow stages ur rid? store0 clock0).result.status =
        "error") ∧
    (∀ e, stages.collect ur = .raise e →
      (execute_workflow stages ur rid? store0 clock0).result.status =
        "error" ∧
      (execute_workflow stages ur rid? store0 clock0).result.message =
        "워크플로우 실행 중 오류: " ++ e ∧
      ∃ st, lookupStr (execute_workflow stages ur rid? store0 clock0).store
          (effective_request_id rid? clock0) = some st ∧
        st.status = "error" ∧ st.end_time.isSome) ∧
    (∀ c e, stages.collect ur = .ret c → c.status = "success" →
      stages.process c = .raise e →
      (execute_workflow stages ur rid? store0 clock0).result.status =
        "error" ∧
      (execute_workflow stages ur rid? store0 clock0).result.message =
        "워크플로우 실행 중 오류: " ++ e ∧
      ∃ st, lookupStr (execute_workflow stages ur rid? store0 clock0).store
          (effective_request_id rid? clock0) = some st ∧
        st.status = "error" ∧ st.end_time.isSome) ∧
    (∀ c p e, stages.collect ur = .ret c → c.status = "success" →
      stages.process c = .ret p → p.status = "success" →
      stages.act p ur = .raise e →
      (execute_workflow stages ur rid? store0 clock0).result.status =
        "error" ∧
      (execute_workflow stages ur rid? store0 clock0).result.message =
        "워크플로우 실행 중 오류: " ++ e ∧
      ∃ st, lookupStr (execute_workflow stages ur rid? store0 clock0).store
          (effective_request_id rid? clock0) = some st ∧
        st.status = "error" ∧ st.end_time.isSome) ∧
    (∀ c p a e, stages.collect ur = .ret c → c.status = "success" →
      stages.process c = .ret p → p.status = "success" →
      stages.act p ur = .ret a → a.status = "success" →
      stages.report ⟨ur, c, p, a⟩ ur = .raise e →
      (execute_workflow stages ur rid? store0 clock0).result.status =
        "error" ∧
      (execute_workflow stages ur rid? store0 clock0).result.message =
        "워크플로우 실행 중 오류: " ++ e ∧
      ∃ st, lookupStr (execute_workflow stages ur rid? store0 clock0).store
          (effective_request_id rid? clock0) = some st ∧
        st.status = "error" ∧ st.end_time.isSome) := by
  refine ⟨?_, ?_, ?_, ?_, ?_⟩
  · cases hc : stages.collect ur with
    | raise e =>
        simp [execute_workflow, _update_status, _log_step, _handle_error,
          runErr, hc, OrchResult.status]
    | ret c =>
        by_cases hcs : c.status = "success"
        · cases hp : stages.process c with
          | raise e =>
              simp [execute_workflow, _update_status, _log_step,
                _handle_error, runErr, hc, hcs, hp, OrchResult.status]
          | ret p =>
              by_cases hps : p.status = "success"
              · cases ha : stages.act p ur with
                | raise e =>
                    simp [execute_workflow, _update_status, _log_step,
                      _handle_error, runErr, hc, hcs, hp, hps, ha,
                      OrchResult.status]
                | ret a =>
                    by_cases has : a.status = "success"
                    · cases hr : stages.report ⟨ur, c, p, a⟩ ur with
                      | raise e =>
                          simp [execute_workflow, _update_status, _log_step,
                            _handle_error, runErr, hc, hcs, hp, hps, ha, has,
                            hr, OrchResult.status]
                      | ret r =>
                          by_cases hrs : r.status = "success" <;>
                            simp [execute_workflow, _update_status,
                              _log_step, _handle_error, runErr, hc, hcs, hp,
                              hps, ha, has, hr, hrs, OrchResult.status]
                    · simp [execute_workflow, _update_status, _log_step,
                        _handle_error, runErr, hc, hcs, hp, hps, ha, has,
                        OrchResult.status]
              · simp [execute_workflow, _update_status, _log_step,
                  _handle_error, runErr, hc, hcs, hp, hps, OrchResult.status]
        · simp [execute_workflow, _update_status, _log_step, _handle_error,
            runErr, hc, hcs, OrchResult.status]
  · intro e hc
    simp [execute_workflow, _update_status, _log_step, _handle_error, runErr,
      hc, OrchResult.status, OrchResult.message,
      lookupStr_storeModify_self, lookupStr_setStr_self, storeModify]
  · intro c e hc hcs hp
    simp [execute_workflow, _update_status, _log_step, _handle_error, runErr,
      hc, hcs, hp, OrchResult.status, OrchResult.message,
      lookupStr_storeModify_self, lookupStr_setStr_self, storeModify]
  · intro c p e hc hcs hp hps ha
    simp [execute_workflow, _update_status, _log_step, _handle_error, runErr,
      hc, hcs, hp, hps, ha, OrchResult.status, OrchResult.message,
      lookupStr_storeModify_self, lookupStr_setStr_self, storeModify]
  · intro c p a e hc hcs hp hps ha has hr
    simp [execute_workflow, _update_status, _log_step, _handle_error, runErr,
      hc, hcs, hp, hps, ha, has, hr, OrchResult.status, OrchResult.message,
      lookupStr_storeModify_self, lookupStr_setStr_self, storeModify]

/-- C3 witness: a collection stage that raises "boom" yields an error
result whose message carries the exception text. -/
theorem execute_workflow_never_propagates_witness :
    (execute_workflow raisingStages "t" (some "req1") [] 0).result.status =
      "error" ∧
    (execute_workflow raisingStages "t" (some "req1") [] 0).result.message =
      "워크플로우 실행 중 오류: " ++ "boom" ∧
    ∃ st, lookupStr (execute_workflow raisingStages "t" (some "req1") []
          0).store (effective_request_id (some "req1") 0) = some st ∧
      st.status = "error" ∧ st.end_time.isSome :=
  (execute_workflow_never_propagates raisingStages "t" (some "req1") []
    0).2.1 "boom" rfl

/-- C4: whichever stage first returns an envelope with status other than
`success`, the run returns an error result immediately: the step log ends
with the failing stage's entry (no later stage's entry appears), and the run
is unchanged under arbitrary replacement of the later stage functions —
i.e. no later stage is invoked. -/
theorem execute_workflow_fail_fast (stages : StageFns) (ur : String)
    (rid? : Option String) (store0 : Store) (clock0 : Nat) :
    (∀ c, stages.collect ur = .ret c → c.status ≠ "success" →
      (execute_workflow stages ur rid? store0 clock0).result.status =
        "error" ∧
      (∃ st, lookupStr (execute_workflow stages ur rid? store0 clock0).store
          (effective_request_id rid? clock0) = some st ∧
        st.steps = [⟨"collection", c.status, clock0 + 1, c.message⟩]) ∧
      (∀ processFn actFn reportFn,
        execute_workflow
          { collect := stages.collect, process := processFn, act := actFn,
            report := reportFn } ur rid? store0 clock0 =
        execute_workflow stages ur rid? store0 clock0)) ∧
    (∀ c p, stages.collect ur = .ret c → c.status = "success" →
      stages.process c = .ret p → p.status ≠ "success" →
      (execute_workflow stages ur rid? store0 clock0).result.status =
        "error" ∧
      (∃ st, lookupStr (execute_workflow stages ur rid? store0 clock0).store
          (effective_request_id rid? clock0) = some st ∧
        st.steps = [⟨"collection", c.status, clock0 + 1, c.message⟩,
                    ⟨"processing", p.status, clock0 + 2, p.message⟩]) ∧
      (∀ actFn reportFn,
        execute_workflow
          { collect := stages.collect, process := stages.process,
            act := actFn, report := reportFn } ur rid? store0 clock0 =
        execute_workflow stages ur rid? store0 clock0)) ∧
    (∀ c p a, stages.collect ur = .ret c → c.status = "success" →
      stages.process c = .ret p → p.status = "success" →
      stages.act p ur = .ret a → a.status ≠ "success" →
      (execute_workflow stages ur rid? store0 clock0).result.status =
        "error" ∧
      (∃ st, lookupStr (execute_workflow stages ur rid? store0 clock0).store
          (effective_request_id rid? clock0) = some st ∧
        st.steps = [⟨"collection", c.status, clock0 + 1, c.message⟩,
                    ⟨"processing", p.status, clock0 + 2, p.message⟩,
                    ⟨"action", a.status, clock0 + 3, a.message⟩]) ∧
      (∀ reportFn,
        execute_workflow
          { collect := stages.collect, process := stages.process,
            act := stages.act, report := reportFn } ur rid? store0 clock0 =
        execute_workflow stages ur rid? store0 clock0)) ∧
    (∀ c p a r, stages.collect ur = .ret c → c.status = "success" →
      stages.process c = .ret p → p.status = "success" →
      stages.act p ur = .ret a → a.status = "success" →
      stages.report ⟨ur, c, p, a⟩ ur = .ret r → r.status ≠ "success" →
      (execute_workflow stages ur rid? store0 clock0).result.status =
        "error" ∧
      ∃ st, lookupStr (execute_workflow stages ur rid? store0 clock0).store
          (effective_request_id rid? clock0) = some st ∧
        st.steps = [⟨"collection", c.status, clock0 + 1, c.message⟩,
                    ⟨"processing", p.status, clock0 + 2, p.message⟩,
                    ⟨"action", a.status, clock0 + 3, a.message⟩,
                    ⟨"reporting", r.status, clock0 + 4, r.message⟩]) := by
  refine ⟨?_, ?_, ?_, ?_⟩
  · intro c hc hcs
    refine ⟨?_, ?_, ?_⟩ <;>
      simp [execute_workflow, _update_status, _log_step, _handle_error,
        runErr, hc, hcs, OrchResult.status,
        lookupStr_storeModify_self, lookupStr_setStr_self, storeModify]
  · intro c p hc hcs hp hps
    refine ⟨?_, ?_, ?_⟩ <;>
      simp [execute_workflow, _update_status, _log_step, _handle_error,
        runErr, hc, hcs, hp, hps, OrchResult.status,
        lookupStr_storeModify_self, lookupStr_setStr_self, storeModify]
  · intro c p a hc hcs hp hps ha has
    refine ⟨?_, ?_, ?_⟩ <;>
      simp [execute_workflow, _update_status, _log_step, _handle_error,
        runErr, hc, hcs, hp, hps, ha, has, OrchResult.status,
        lookupStr_storeModify_self, lookupStr_setStr_self, storeModify]
  · intro c p a r hc hcs hp hps ha has hr hrs
    refine ⟨?_, ?_⟩ <;>
      simp [execute_workflow, _update_status, _log_step, _handle_error,
        runErr, hc, hcs, hp, hps, ha, has, hr, hrs, OrchResult.status,
        lookupStr_storeModify_self, lookupStr_setStr_self, storeModify]

/-- C4 witness: the spec's scenario — processing stubbed to fail with
"bad data" — leaves exactly the two step-log entries and an error result. -/
theorem execute_workflow_fail_fast_witness :
    (execute_workflow failProcessStages "test topic" (some "req1") []
      0).result.status = "error" ∧
    (∃ st, lookupStr (execute_workflow failProcessStages "test topic"
        (some "req1") [] 0).store
        (effective_request_id (some "req1") 0) = some st ∧
      st.steps = [⟨"collection", okEnv.status, 0 + 1, okEnv.message⟩,
                  ⟨"processing", errEnv.status, 0 + 2, errEnv.message⟩]) ∧
    (∀ actFn reportFn,
      execute_workflow
        { collect := failProcessStages.collect,
          process := failProcessStages.process,
          act := actFn, report := reportFn } "test topic" (some "req1") [] 0 =
      execute_workflow failProcessStages "test topic" (some "req1") [] 0) :=
  (execute_workflow_fail_fast failProcessStages "test topic" (some "req1")
    [] 0).2.1 okEnv errEnv rfl rfl rfl (by decide)

/-- C8: within one run, the sequence of values written to the stored
state's `progress` field is a prefix of 0, 25, 50, 75, 90, 100 — so it is
monotonically non-decreasing, takes only those values in that order, and
stops at the last checkpoint on error. -/
theorem progress_monotone_checkpoints (stages : StageFns) (ur : String)
    (rid? : Option String) (store0 : Store) (clock0 : Nat) :
    (∃ t, (execute_workflow stages ur rid? store0 clock0).progressTrace ++ t =
      [0, 25, 50, 75, 90, 100]) ∧
    List.Sorted (· ≤ ·)
      (execute_workflow stages ur rid? store0 clock0).progressTrace := by
  cases hc : stages.collect ur with
  | raise e =>
      exact ⟨⟨[50, 75, 90, 100], by
        simp [execute_workflow, _update_status, _log_step, _handle_error,
          runErr, hc]⟩, by
        simp [execute_workflow, _update_status, _log_step, _handle_error,
          runErr, hc]⟩
  | ret c =>
    by_cases hcs : c.status = "success"
    · cases hp : stages.process c with
      | raise e =>
          exact ⟨⟨[75, 90, 100], by
            simp [execute_workflow, _update_status, _log_step, _handle_error,
              runErr, hc, hcs, hp]⟩, by
            simp [execute_workflow, _update_status, _log_step, _handle_error,
              runErr, hc, hcs, hp]⟩
      | ret p =>
        by_cases hps : p.status = "success"
        · cases ha : stages.act p ur with
          | raise e =>
              exact ⟨⟨[90, 100], by
                simp [execute_workflow, _update_status, _log_step,
                  _handle_error, runErr, hc, hcs, hp, hps, ha]⟩, by
                simp [execute_workflow, _update_status, _log_step,
                  _handle_error, runErr, hc, hcs, hp, hps, ha]⟩
          | ret a =>
            by_cases has : a.status = "success"
            · cases hr : stages.report ⟨ur, c, p, a⟩ ur with
              | raise e =>
                  exact ⟨⟨[100], by
                    simp [execute_workflow, _update_status, _log_step,
                      _handle_error, runErr, hc, hcs, hp, hps, ha, has,
                      hr]⟩, by
                    simp [execute_workflow, _update_status, _log_step,
                      _handle_error, runErr, hc, hcs, hp, hps, ha, has, hr]⟩
              | ret r =>
                by_cases hrs : r.status = "success"
                · exact ⟨⟨[], by
                    simp [execute_workflow, _update_status, _log_step,
                      _handle_error, runErr, hc, hcs, hp, hps, ha, has, hr,
                      hrs]⟩, by
                    simp [execute_workflow, _update_status, _log_step,
                      _handle_error, runErr, hc, hcs, hp, hps, ha, has, hr,
                      hrs]⟩
                · exact ⟨⟨[100], by
                    simp [execute_workflow, _update_status, _log_step,
                      _handle_error, runErr, hc, hcs, hp, hps, ha, has, hr,
                      hrs]⟩, by
                    simp [execute_workflow, _update_status, _log_step,
                      _handle_error, runErr, hc, hcs, hp, hps, ha, has, hr,
                      hrs]⟩
            · exact ⟨⟨[90, 100], by
                simp [execute_workflow, _update_status, _log_step,
                  _handle_error, runErr, hc, hcs, hp, hps, ha, has]⟩, by
                simp [execute_workflow, _update_status, _log_step,
                  _handle_error, runErr, hc, hcs, hp, hps, ha, has]⟩
        · exact ⟨⟨[75, 90, 100], by
            simp [execute_workflow, _update_status, _log_step, _handle_error,
              runErr, hc, hcs, hp, hps]⟩, by
            simp [execute_workflow, _update_status, _log_step, _handle_error,
              runErr, hc, hcs, hp, hps]⟩
    · exact ⟨⟨[50, 75, 90, 100], by
        simp [execute_workflow, _update_status, _log_step, _handle_error,
          runErr, hc, hcs]⟩, by
        simp [execute_workflow, _update_status, _log_step, _handle_error,
          runErr, hc, hcs]⟩

/-- C9: querying the status of an unknown request identifier answers
`not_found` and leaves the state store unchanged. -/
theorem get_workflow_status_not_found (store : Store) (request_id : String)
    (h : lookupStr store request_id = none) :
    (get_workflow_status store request_id).1 = .not_found ∧
    (get_workflow_status store request_id).1.status = "not_found" ∧
    (get_workflow_status store request_id).2 = store := by
  simp [get_workflow_status, h, StatusView.status]

/-- C9 witness: querying "missing" against the empty store. -/
theorem get_workflow_status_not_found_witness :
    (get_workflow_status [] "missing").1 = .not_found ∧
    (get_workflow_status [] "missing").1.status = "not_found" ∧
    (get_workflow_status [] "missing").2 = [] :=
  get_workflow_status_not_found [] "missing" rfl

/-- C5: `MCPClient.call_tool` never raises: whatever the session state and
arguments, it returns a structured dictionary whose `success` field is
either `true`, or `false` together with an `error` string — including for
servers that were never initialized and for tools unknown to a mock
session. -/
theorem call_tool_never_raises (c : MCPClient) (server tool : String)
    (args : ToolArgs) :
    ((c.call_tool server tool args).isObj = true) ∧
    ((c.call_tool server tool args).field? "success" = some (.bool true) ∨
      ((c.call_tool server tool args).field? "success" = some (.bool false) ∧
       ∃ e, (c.call_tool server tool args).field? "error" =
         some (.str e))) ∧
    (lookupStr c.active_sessions server = none →
      (c.call_tool server tool args).field? "success" =
        some (.bool false) ∧
      (c.call_tool server tool args).field? "error" =
        some (.str ("Server " ++ server ++ " not initialized"))) ∧
    (∀ m, lookupStr c.active_sessions server = some (.mock m) →
      tool ∉ mockToolNames m.server_name →
      (c.call_tool server tool args).field? "success" =
        some (.bool false) ∧
      (c.call_tool server tool args).field? "error" =
        some (.str ("Tool " ++ tool ++ " not found in " ++
          m.server_name))) := by
  refine ⟨?_, ?_, ?_, ?_⟩
  · cases h : lookupStr c.active_sessions server with
    | none => simp [MCPClient.call_tool, h, Val.isObj]
    | some s =>
        cases s with
        | mock m =>
            by_cases ht : tool ∈ mockToolNames m.server_name <;>
              simp [MCPClient.call_tool, h, MockMCPSession.call_tool, ht,
                mockResponse, Val.isObj] <;> split_ifs <;> simp [Val.isObj]
        | real b =>
            cases hb : b tool args with
            | ok r => simp [MCPClient.call_tool, h, hb, Val.isObj]
            | raise e => simp [MCPClient.call_tool, h, hb, Val.isObj]
  · cases h : lookupStr c.active_sessions server with
    | none => simp [MCPClient.call_tool, h, Val.field?, lookupStr]
    | some s =>
        cases s with
        | mock m =>
            by_cases ht : tool ∈ mockToolNames m.server_name <;>
              simp [MCPClient.call_tool, h, MockMCPSession.call_tool, ht,
                mockResponse, Val.field?, lookupStr] <;>
              split_ifs <;> simp [Val.field?, lookupStr]
        | real b =>
            cases hb : b tool args with
            | ok r => simp [MCPClient.call_tool, h, hb, Val.field?, lookupStr]
            | raise e =>
                simp [MCPClient.call_tool, h, hb, Val.field?, lookupStr]
  · intro h
    simp [MCPClient.call_tool, h, Val.field?, lookupStr]
  · intro m h ht
    simp [MCPClient.call_tool, h, MockMCPSession.call_tool, ht, Val.field?,
      lookupStr]

/-- A client with no active sessions (the state before any server
initialization succeeds). -/
def emptyClient : MCPClient :=
  { agent_name := "processor", active_sessions := [] }

/-- C5 witness: calling a never-initialized server on a concrete client
returns the structured failure. -/
theorem call_tool_never_raises_witness :
    ((emptyClient.call_tool "gmail" "send_email" []).field? "success" =
      some (.bool false)) ∧
    ((emptyClient.call_tool "gmail" "send_email" []).field? "error" =
      some (.str ("Server " ++ "gmail" ++ " not initialized"))) :=
  (call_tool_never_raises emptyClient "gmail" "send_email" []).2.2.1 rfl

/-- C6 counterexample: `sqlite` is declared in the registry and the
processor agent invokes its tool `execute` (processor_agent.py line 296),
but the mock fallback answers that call with `success=false` — the mock
table declares no tools at all for `sqlite`. -/
theorem mock_coverage_counterexample :
    ("sqlite" ∈ registryServerNames) ∧
    (("processor", "sqlite", "execute") ∈ agentToolCallSites) ∧
    ((MockMCPSession.call_tool ⟨"sqlite"⟩ "execute" []).field? "success" =
      some (.bool false)) ∧
    ((MockMCPSession.call_tool ⟨"sqlite"⟩ "execute" []).field? "error" =
      some (.str "Tool execute not found in sqlite")) :=
  ⟨by decide, by decide, by rfl, by rfl⟩

/-- C6 amended: for the six registry servers with mock tool declarations
and every tool so declared, the mock fallback returns `success=true` (the
templated tools carrying their tool-specific keys); the other three
registry servers (`sqlite`, `markdown`, `notion`) declare no mock tools,
and the tools the agents invoke on them return `success=false`. -/
theorem mock_coverage_amended :
    (∀ server ∈ registryServerNames, ∀ tool ∈ mockToolNames server,
      ∀ args : ToolArgs,
      (MockMCPSession.call_tool ⟨server⟩ tool args).field? "success" =
        some (.bool true)) ∧
    (∀ args : ToolArgs,
      (MockMCPSession.call_tool ⟨"sqlite"⟩ "execute" args).field?
        "success" = some (.bool false) ∧
      (MockMCPSession.call_tool ⟨"markdown"⟩ "create_document" args).field?
        "success" = some (.bool false) ∧
      (MockMCPSession.call_tool ⟨"notion"⟩ "create_page" args).field?
        "success" = some (.bool false)) ∧
    (∀ args : ToolArgs,
      ((MockMCPSession.call_tool ⟨"firecrawl"⟩ "scrape_url" args).field?
        "content").isSome ∧
      ((MockMCPSession.call_tool ⟨"firecrawl"⟩ "scrape_url" args).field?
        "title").isSome ∧
      ((MockMCPSession.call_tool ⟨"firecrawl"⟩ "scrape_url" args).field?
        "metadata").isSome ∧
      ((MockMCPSession.call_tool ⟨"web_search"⟩ "search" args).field?
        "results").isSome ∧
      ((MockMCPSession.call_tool ⟨"gmail"⟩ "send_email" args).field?
        "message").isSome ∧
      ((MockMCPSession.call_tool ⟨"slack"⟩ "send_message" args).field?
        "message").isSome ∧
      ((MockMCPSession.call_tool ⟨"chart"⟩ "create_chart" args).field?
        "chart_url").isSome) := by
  refine ⟨?_, ?_, ?_⟩
  · intro server hs tool ht args
    fin_cases hs <;>
      simp [mockToolNames, mockToolTable] at ht <;>
      rcases ht with rfl | rfl | rfl <;>
      simp [MockMCPSession.call_tool, mockToolNames, mockToolTable,
        mockResponse, Val.field?, lookupStr]
  · intro args
    exact ⟨rfl, rfl, rfl⟩
  · intro args
    refine ⟨?_, ?_, ?_, ?_, ?_, ?_, ?_⟩ <;>
      simp [MockMCPSession.call_tool, mockToolNames, mockToolTable,
        mockResponse, Val.field?, lookupStr]

/-- C6 amended witness: the declared tool `search` on the registry server
`web_search` answers through the mock with `success=true`. -/
theorem mock_coverage_amended_witness :
    (MockMCPSession.call_tool ⟨"web_search"⟩ "search" []).field? "success" =
      some (.bool true) :=
  mock_coverage_amended.1 "web_search" (by decide) "search" (by decide) []

/-- C7 counterexample: the validation error texts the spec states are not
the ones the code produces: an uninitialized server yields
"Server gmail not initialized" (not "server not permitted for this agent"),
and an unknown tool on a mock session yields
"Tool bogus_tool not found in gmail" (not "unknown tool"). -/
theorem call_tool_error_text_counterexample :
    ((emptyClient.call_tool "gmail" "send_email" []).field? "error" =
      some (.str "Server gmail not initialized")) ∧
    ("Server gmail not initialized" ≠ "server not permitted for this agent") ∧
    ((MCPClient.call_tool
        ⟨"reporter", [("gmail", .mock ⟨"gmail"⟩)]⟩ "gmail" "bogus_tool"
        []).field? "error" =
      some (.str "Tool bogus_tool not found in gmail")) ∧
    ("Tool bogus_tool not found in gmail" ≠ "unknown tool") :=
  ⟨by rfl, by decide, by rfl, by decide⟩

/-- C7 amended: both validations exist and return `success=false`, but with
the messages "Server {name} not initialized" and (on the mock-session path,
the only place a capability table exists) "Tool {tool} not found in
{server}". -/
theorem call_tool_validation_amended (c : MCPClient) (server tool : String)
    (args : ToolArgs) :
    (lookupStr c.active_sessions server = none →
      (c.call_tool server tool args).field? "success" =
        some (.bool false) ∧
      (c.call_tool server tool args).field? "error" =
        some (.str ("Server " ++ server ++ " not initialized"))) ∧
    (∀ m, lookupStr c.active_sessions server = some (.mock m) →
      tool ∉ mockToolNames m.server_name →
      (c.call_tool server tool args).field? "success" =
        some (.bool false) ∧
      (c.call_tool server tool args).field? "error" =
        some (.str ("Tool " ++ tool ++ " not found in " ++
          m.server_name))) := by
  constructor
  · intro h
    simp [MCPClient.call_tool, h, Val.field?, lookupStr]
  · intro m h ht
    simp [MCPClient.call_tool, h, MockMCPSession.call_tool, ht, Val.field?,
      lookupStr]

/-- C7 amended witness: both validation branches at concrete inputs. -/
theorem call_tool_validation_amended_witness :
    ((emptyClient.call_tool "gmail" "send_email" []).field? "error" =
      some (.str ("Server " ++ "gmail" ++ " not initialized"))) ∧
    ((MCPClient.call_tool
        ⟨"reporter", [("gmail", .mock ⟨"gmail"⟩)]⟩ "gmail" "bogus_tool"
        []).field? "error" =
      some (.str ("Tool " ++ "bogus_tool" ++ " not found in " ++ "gmail"))) :=
  ⟨((call_tool_validation_amended emptyClient "gmail" "send_email" []).1
      rfl).2,
   ((call_tool_validation_amended ⟨"reporter", [("gmail", .mock ⟨"gmail"⟩)]⟩
      "gmail" "bogus_tool" []).2 ⟨"gmail"⟩ rfl (by decide)).2⟩

/-- C10: `collect_information` has no error-return path: every returned
envelope has status `success`; and whenever the MCP client is present and
the MCP path yields at least 3 items, the fallback branch that assigns the
local variable `urls` is skipped while the success message still
interpolates it, so the function raises `UnboundLocalError` instead of
returning. -/
theorem collect_information_no_error_return (ex : String → List String)
    (mcpPresent : Bool) (mcpCollect : String → List SiteItem)
    (search_websites : String → List String)
    (scrape_multiple_sites : List String → List SiteItem) (ur : String) :
    (∀ res, collect_information ex mcpPresent mcpCollect search_websites
        scrape_multiple_sites ur = .ret res → res.status = "success") ∧
    (mcpPresent = true →
      3 ≤ (mcpCollect (" ".intercalate (ex ur))).length →
      collect_information ex mcpPresent mcpCollect search_websites
        scrape_multiple_sites ur =
        .raise "UnboundLocalError: local variable urls referenced before assignment") := by
  constructor
  · intro res hres
    by_cases hm : (if mcpPresent then mcpCollect (" ".intercalate (ex ur))
        else []).length < 3
    · simp [collect_information, hm] at hres
      cases hres
      rfl
    · simp [collect_information, hm] at hres
  · intro hmp hlen
    have hm : ¬ (if mcpPresent then mcpCollect (" ".intercalate (ex ur))
        else []).length < 3 := by
      simp [hmp]; omega
    simp [collect_information, hm]

/-- A successfully scraped site item. -/
def sampleItem : SiteItem :=
  { status := "success", url := "https://example.com", title := "t",
    description := "", content := "c" }

/-- An MCP collection path that yields three items for any query. -/
def threeMcpItems : String → List SiteItem :=
  fun _ => [sampleItem, sampleItem, sampleItem]

/-- Keyword extraction stub. -/
def stubExtract : String → List String := fun _ => []

/-- Website search stub. -/
def stubSearch : String → List String := fun _ => []

/-- Multi-site scraping stub. -/
def stubScrape : List String → List SiteItem := fun _ => []

/-- C10 witness: with the MCP client present and an MCP path yielding three
items, `collect_information` raises `UnboundLocalError` on the concrete
input. -/
theorem collect_information_no_error_return_witness :
    collect_information stubExtract true threeMcpItems stubSearch stubScrape
      "any request" =
      .raise "UnboundLocalError: local variable urls referenced before assignment" :=
  (collect_information_no_error_return stubExtract true threeMcpItems
    stubSearch stubScrape "any request").2 rfl (by decide)
